import Mathlib

/-!
Shallow embedding of the copy-trading core of the polymarket_copytrader
repository, and proofs about it.

Two implementations of the pipeline live in the repository:
the component package (src/app/strategy.py, risk.py, executor.py,
wallet_monitor.py, models.py) is embedded in namespace App, and the
monolithic src/main.py is embedded in namespace MainApp.

Conventions of the embedding:
* Python floats are modelled as exact rationals.
* Timestamps are integers (seconds); a calendar date is the floor
  division of a timestamp by 86400, and the days component of a
  timedelta is likewise a floor division, matching Python semantics.
* The database session is modelled as a record of tables (lists of
  rows, in insertion order) plus the clock the database uses to fill
  default timestamps; commits always succeed.
* Network calls (market-data fetches, order placement) are modelled by
  passing the value the external service returns as an argument.
-/

/-- Rounding of a rational to the nearest integer, ties to even, the
tie-breaking rule of the Python built-in round. -/
def roundHalfEven (q : ℚ) : ℤ :=
  let f : ℤ := ⌊q⌋
  let r : ℚ := q - f
  if r < 1/2 then f
  else if 1/2 < r then f + 1
  else if Even f then f else f + 1

/-- Rounding to four decimal places, as round(x, 4) in Python. -/
def round4 (q : ℚ) : ℚ := (roundHalfEven (q * 10000) : ℚ) / 10000

/-- Rejection test of the days-to-resolution filter shared by both
strategy variants: a market is rejected when resolution metadata is
present and the days component of the time to resolution exceeds the
maximum. -/
def resolutionTooFar (resolution_time : Option ℤ) (now max_days : ℤ) : Bool :=
  match resolution_time with
  | none => false
  | some rt => decide (max_days < (rt - now).fdiv 86400)

namespace App

/-- Settings row of src/app/models.py (fields used by the core). -/
structure Settings where
  global_trading_mode : String := "TEST"
  global_trading_status : String := "STOPPED"
  dry_run_enabled : Bool := true
  min_market_volume : ℚ := 1000
  max_days_to_resolution : ℤ := 30
  max_open_markets : ℕ := 10
  max_exposure_per_market : ℚ := 100
  copy_trade_percentage : ℚ := 20
  max_trade_amount : ℚ := 100
  daily_loss_limit : ℚ := 200
  max_trades_per_hour : ℕ := 10
deriving Repr, DecidableEq

/-- LeaderTradeDTO of src/app/polymarket_client.py. -/
structure LeaderTradeDTO where
  external_trade_id : String
  market_id : String
  outcome_id : String
  side : String
  size : ℚ
  price : ℚ
  executed_at : ℤ
  category : String := ""
deriving Repr, DecidableEq

/-- LeaderTrade row of src/app/models.py. -/
structure LeaderTrade where
  id : ℕ
  external_trade_id : String
  wallet_id : ℕ
  market_id : String
  outcome_id : String
  side : String
  size : ℚ
  price : ℚ
  executed_at : ℤ
  category : String := ""
deriving Repr, DecidableEq

/-- FollowerTrade row of src/app/models.py. -/
structure FollowerTrade where
  leader_trade_id : ℕ
  market_id : String
  outcome_id : String
  side : String
  size : ℚ
  price : ℚ
  executed_at : ℤ
  status : String := "EXECUTED"
  pnl : ℚ := 0
  is_dry_run : Bool := false
deriving Repr, DecidableEq

/-- Position row of src/app/models.py. -/
structure Position where
  market_id : String
  outcome_id : String
  size : ℚ
  average_price : ℚ
deriving Repr, DecidableEq

/-- SystemEvent row of src/app/models.py (metadata payload not modelled). -/
structure SystemEvent where
  event_type : String
  message : String
  level : String := "INFO"
deriving Repr, DecidableEq

/-- MirrorOrder of src/app/strategy.py. -/
structure MirrorOrder where
  leader_trade_id : ℕ
  market_id : String
  outcome_id : String
  side : String
  size : ℚ
  max_price : ℚ
deriving Repr, DecidableEq

/-- OrderResult of src/app/polymarket_client.py. -/
structure OrderResult where
  success : Bool
  order_id : String := ""
  error : String := ""
deriving Repr, DecidableEq

/-- MarketDTO of src/app/polymarket_client.py. -/
structure MarketDTO where
  market_id : String
  question : String := ""
  category : String := ""
  volume : ℚ
  resolution_time : Option ℤ := none
  is_active : Bool := true
deriving Repr, DecidableEq

/-- Database session state for the app package: the tables the core
reads and writes, plus the clock used for default timestamps. -/
structure DB where
  clock : ℤ := 0
  leader_trades : List LeaderTrade := []
  follower_trades : List FollowerTrade := []
  positions : List Position := []
  system_events : List SystemEvent := []
deriving Repr, DecidableEq

namespace CopyStrategy

/-- CopyStrategy._calculate_trade_size of src/app/strategy.py. -/
def calculate_trade_size (s : Settings) (leader_size leader_price : ℚ) : ℚ :=
  let percentage := s.copy_trade_percentage / 100
  let base_size := leader_size * percentage
  let max_amount := s.max_trade_amount
  let usd_value := base_size * leader_price
  let usd_value := if usd_value > max_amount then max_amount else usd_value
  let capped_size := if leader_price > 0 then usd_value / leader_price else 0
  round4 capped_size

/-- CopyStrategy._apply_slippage of src/app/strategy.py: a fixed 2 percent
slippage is added to the leader price. -/
def apply_slippage (price : ℚ) : ℚ :=
  let slippage_pct : ℚ := 2/100
  price * (1 + slippage_pct)

/-- CopyStrategy.process_leader_trade of src/app/strategy.py, with the
market-info fetch result passed in as an argument and the current time
as now. Returns the mirror order, or none when a filter rejects. -/
def process_leader_trade (s : Settings) (lt : LeaderTrade)
    (market_info : Option MarketDTO) (now : ℤ) : Option MirrorOrder :=
  if s.global_trading_status ≠ "RUNNING" then none
  else match market_info with
  | none => none
  | some mi =>
    if mi.volume < s.min_market_volume then none
    else if resolutionTooFar mi.resolution_time now s.max_days_to_resolution
    then none
    else if calculate_trade_size s lt.size lt.price ≤ 0 then none
    else some
      { leader_trade_id := lt.id
        market_id := lt.market_id
        outcome_id := lt.outcome_id
        side := lt.side
        size := calculate_trade_size s lt.size lt.price
        max_price := apply_slippage lt.price }

end CopyStrategy

namespace WalletMonitor

/-- WalletMonitor._process_leader_trade of src/app/wallet_monitor.py: skip
when a LeaderTrade with the same external_trade_id already exists,
otherwise insert the new LeaderTrade row and one LEADER_TRADE event. -/
def process_leader_trade (db : DB) (wallet_id : ℕ) (dto : LeaderTradeDTO) : DB :=
  if db.leader_trades.any
      (fun t => t.external_trade_id == dto.external_trade_id) then db
  else
    let leader_trade : LeaderTrade :=
      { id := db.leader_trades.length
        external_trade_id := dto.external_trade_id
        wallet_id := wallet_id
        market_id := dto.market_id
        outcome_id := dto.outcome_id
        side := dto.side
        size := dto.size
        price := dto.price
        executed_at := dto.executed_at
        category := dto.category }
    let ev : SystemEvent :=
      { event_type := "LEADER_TRADE"
        message := "New trade detected"
        level := "INFO" }
    { db with
      leader_trades := db.leader_trades ++ [leader_trade]
      system_events := db.system_events ++ [ev] }

/-- Ingestion of one fetched feed (the inner loop of
WalletMonitor._check_wallet_trades): each trade of the feed is processed
in order, paired with the id of the wallet it came from. -/
def ingestFeed (db : DB) (feed : List (ℕ × LeaderTradeDTO)) : DB :=
  feed.foldl (fun d p => process_leader_trade d p.1 p.2) db

/-- Ingestion across a sequence of poll cycles, each cycle being the
concatenated feeds fetched in that cycle. -/
def ingestCycles (db : DB) (cycles : List (List (ℕ × LeaderTradeDTO))) : DB :=
  cycles.foldl ingestFeed db

end WalletMonitor

namespace RiskManager

/-- Count of distinct markets with an open position, as
RiskManager._get_open_markets_count of src/app/risk.py. -/
def get_open_markets_count (ps : List Position) : ℕ :=
  (ps.map (fun p => p.market_id)).dedup.length

/-- Total absolute exposure of one market, as
RiskManager._get_market_exposure of src/app/risk.py. -/
def get_market_exposure (ps : List Position) (market_id : String) : ℚ :=
  |((ps.filter (fun p => p.market_id == market_id)).map
      (fun p => p.size * p.average_price)).sum|

/-- Todays profit and loss, as RiskManager._get_daily_pnl of
src/app/risk.py: the pnl sum over follower trades whose executed_at
falls on the current UTC calendar day. -/
def get_daily_pnl (fts : List FollowerTrade) (now : ℤ) : ℚ :=
  ((fts.filter (fun t => t.executed_at.fdiv 86400 == now.fdiv 86400)).map
      (fun t => t.pnl)).sum

/-- Count of follower trades in the trailing hour, as
RiskManager._get_recent_trades_count of src/app/risk.py. -/
def get_recent_trades_count (fts : List FollowerTrade) (now : ℤ) : ℕ :=
  (fts.filter (fun t => now - 3600 ≤ t.executed_at)).length

/-- RiskManager.can_open_trade of src/app/risk.py, with the database
clock as the current time. The reason strings follow the source; the
two-decimal number formatting of the f-strings is rendered with
toString. -/
def can_open_trade (s : Settings) (db : DB) (order : MirrorOrder) :
    Bool × String :=
  let trade_usd := order.size * order.max_price
  if trade_usd > s.max_trade_amount then
    (false, "Trade size $" ++ toString trade_usd ++ " exceeds max $"
      ++ toString s.max_trade_amount)
  else
    let open_markets := get_open_markets_count db.positions
    if s.max_open_markets ≤ open_markets then
      (false, "Already have " ++ toString open_markets ++ " open markets")
    else
      let market_exposure := get_market_exposure db.positions order.market_id
      if s.max_exposure_per_market ≤ market_exposure then
        (false, "Market exposure $" ++ toString market_exposure
          ++ " exceeds limit $" ++ toString s.max_exposure_per_market)
      else
        let daily_pnl := get_daily_pnl db.follower_trades db.clock
        if daily_pnl ≤ -s.daily_loss_limit then
          (false, "Daily PnL $" ++ toString daily_pnl
            ++ " below loss limit -$" ++ toString s.daily_loss_limit)
        else
          let recent_trades := get_recent_trades_count db.follower_trades db.clock
          if s.max_trades_per_hour ≤ recent_trades then
            (false, "Already made " ++ toString recent_trades
              ++ " trades this hour")
          else (true, "OK")

end RiskManager

namespace TradeExecutor

/-- Merge of a trade execution into the position row for the orders
(market_id, outcome_id) key, following the branch structure of
TradeExecutor._update_position of src/app/executor.py: none stands for
a missing (or deleted) row. -/
def mergePosition (pos : Option Position) (order : MirrorOrder)
    (execution_price : ℚ) : Option Position :=
  match pos with
  | some position =>
    if order.side = "YES" then
      let total_size := position.size + order.size
      let total_cost := position.size * position.average_price
        + order.size * execution_price
      let new_avg_price := if total_size > 0 then total_cost / total_size else 0
      some { position with size := total_size, average_price := new_avg_price }
    else
      let total_size := position.size - order.size
      if total_size ≤ 0 then none
      else some { position with size := total_size }
  | none =>
    if order.side = "YES" ∧ order.size > 0 then
      some { market_id := order.market_id
             outcome_id := order.outcome_id
             size := order.size
             average_price := execution_price }
    else none

/-- TradeExecutor._update_position of src/app/executor.py lifted to the
positions table: the first row matching the orders key is updated or
deleted via mergePosition; when no row matches, a row is created for a
positive YES order. -/
def update_position : List Position → MirrorOrder → ℚ → List Position
  | [], order, px =>
    match mergePosition none order px with
    | some q => [q]
    | none => []
  | q :: rest, order, px =>
    if q.market_id = order.market_id ∧ q.outcome_id = order.outcome_id then
      match mergePosition (some q) order px with
      | none => rest
      | some q2 => q2 :: rest
    else q :: update_position rest order px

/-- Outcome of one executor call: the returned boolean, the database
state afterwards, and whether the live trading port was invoked. -/
structure ExecOutcome where
  ok : Bool
  db : DB
  portCalled : Bool
deriving Repr, DecidableEq

/-- TradeExecutor._execute_dry_run of src/app/executor.py: record a
SIMULATED FollowerTrade at the orders max_price, update the position at
that fictitious execution price, and emit one TRADE_EXECUTED event. -/
def execute_dry_run (db : DB) (order : MirrorOrder) : ExecOutcome :=
  let follower_trade : FollowerTrade :=
    { leader_trade_id := order.leader_trade_id
      market_id := order.market_id
      outcome_id := order.outcome_id
      side := order.side
      size := order.size
      price := order.max_price
      executed_at := db.clock
      status := "SIMULATED"
      is_dry_run := true }
  let db := { db with follower_trades := db.follower_trades ++ [follower_trade] }
  let db := { db with positions := update_position db.positions order order.max_price }
  let ev : SystemEvent :=
    { event_type := "TRADE_EXECUTED"
      message := "DRY_RUN: " ++ order.side ++ " shares of " ++ order.market_id
      level := "INFO" }
  let db := { db with system_events := db.system_events ++ [ev] }
  { ok := true, db := db, portCalled := false }

/-- TradeExecutor._execute_live_trade of src/app/executor.py, with the
OrderResult returned by PolymarketClient.place_order passed in (that
client converts its own failures, network errors included, into an
OrderResult with success false). -/
def execute_live_trade (db : DB) (order : MirrorOrder)
    (result : OrderResult) : ExecOutcome :=
  if result.success then
    let follower_trade : FollowerTrade :=
      { leader_trade_id := order.leader_trade_id
        market_id := order.market_id
        outcome_id := order.outcome_id
        side := order.side
        size := order.size
        price := order.max_price
        executed_at := db.clock
        status := "EXECUTED"
        is_dry_run := false }
    let db := { db with follower_trades := db.follower_trades ++ [follower_trade] }
    let db := { db with positions := update_position db.positions order order.max_price }
    let ev : SystemEvent :=
      { event_type := "TRADE_EXECUTED"
        message := "LIVE: " ++ order.side ++ " shares of " ++ order.market_id
        level := "INFO" }
    let db := { db with system_events := db.system_events ++ [ev] }
    { ok := true, db := db, portCalled := true }
  else
    let follower_trade : FollowerTrade :=
      { leader_trade_id := order.leader_trade_id
        market_id := order.market_id
        outcome_id := order.outcome_id
        side := order.side
        size := order.size
        price := order.max_price
        executed_at := db.clock
        status := "FAILED"
        is_dry_run := false }
    let db := { db with follower_trades := db.follower_trades ++ [follower_trade] }
    let ev : SystemEvent :=
      { event_type := "TRADE_FAILED"
        message := "Failed to execute " ++ order.side ++ " order: " ++ result.error
        level := "ERROR" }
    let db := { db with system_events := db.system_events ++ [ev] }
    { ok := false, db := db, portCalled := true }

/-- TradeExecutor.execute_order of src/app/executor.py: refuse when the
global trading status is not RUNNING, simulate when dry_run_enabled is
set, otherwise execute live. -/
def execute_order (s : Settings) (db : DB) (order : MirrorOrder)
    (result : OrderResult) : ExecOutcome :=
  if s.global_trading_status ≠ "RUNNING" then
    { ok := false, db := db, portCalled := false }
  else if s.dry_run_enabled then execute_dry_run db order
  else execute_live_trade db order result

end TradeExecutor

/-- Modelled from the spec: the monitor-to-executor wiring for the app
package components is absent from src (app/background.py imports
monitor_wallets and execute_trades, which exist nowhere); following
section 2 and section 4.3 of the spec, the RiskManager gates execution,
so an order reaches the executor only when can_open_trade allows it. -/
def risk_gated_execute (s : Settings) (db : DB) (order : MirrorOrder)
    (result : OrderResult) : DB :=
  if (RiskManager.can_open_trade s db order).1 then
    (TradeExecutor.execute_order s db order result).db
  else db

end App

namespace MainApp

/-- Settings row of src/main.py. The datetime defaults are modelled as
time zero. -/
structure MSettings where
  global_trading_mode : String := "TEST"
  global_trading_status : String := "STOPPED"
  dry_run_enabled : Bool := true
  copy_trade_percentage : ℚ := 20
  max_trade_amount : ℚ := 100
  min_market_volume : ℚ := 1000
  max_days_to_resolution : ℤ := 30
  trade_cooldown : ℤ := 30
  poll_interval : ℤ := 30
  daily_loss_limit : ℚ := 200
  last_mode_switch : ℤ := 0
  test_mode_started : Option ℤ := none
  live_mode_started : Option ℤ := none
deriving Repr, DecidableEq

/-- Wallet row of src/main.py. -/
structure Wallet where
  id : ℕ
  address : String
  nickname : String := ""
  is_active : Bool := true
  last_monitored : Option ℤ := none
deriving Repr, DecidableEq

/-- LeaderTrade row of src/main.py. -/
structure MLeaderTrade where
  id : ℕ
  wallet_id : ℕ
  external_trade_id : String
  market_id : String
  outcome : String
  side : String
  amount : ℚ
  price : ℚ
  executed_at : ℤ
deriving Repr, DecidableEq

/-- FollowerTrade row of src/main.py. -/
structure MFollowerTrade where
  leader_trade_id : ℕ
  market_id : String
  outcome : String
  side : String
  amount : ℚ
  price : ℚ
  status : String := "PENDING"
  is_dry_run : Bool := false
  created_at : ℤ := 0
deriving Repr, DecidableEq

/-- SystemEvent row of src/main.py. -/
structure MSystemEvent where
  event_type : String
  message : String
deriving Repr, DecidableEq

/-- Database session state for src/main.py: its tables and the clock
used for default timestamps. The Settings table holds at most one row. -/
structure MDB where
  clock : ℤ := 0
  settings : Option MSettings := none
  wallets : List Wallet := []
  leader_trades : List MLeaderTrade := []
  follower_trades : List MFollowerTrade := []
  system_events : List MSystemEvent := []
deriving Repr, DecidableEq

/-- Market dictionary consumed by CopyTradingStrategy.process_leader_trade
of src/main.py; the source reads it with get("active", True),
get("volume", 0) and get("resolution_time"), modelled by the field
defaults here. -/
structure MarketInfo where
  active : Bool := true
  volume : ℚ := 0
  resolution_time : Option ℤ := none
deriving Repr, DecidableEq

/-- Trade dictionary of one feed entry, as consumed by
WalletMonitor.process_trade of src/main.py. -/
structure TradeData where
  id : String
  market : String
  outcome : String
  side : String
  amount : ℚ
  price : ℚ
  timestamp : ℤ
deriving Repr, DecidableEq

/-- Leader-trade dictionary handed to the strategy by
WalletMonitor.process_trade of src/main.py. -/
structure LeaderDict where
  market_id : String
  outcome : String
  side : String
  amount : ℚ
  price : ℚ
deriving Repr, DecidableEq

/-- Mirror-trade dictionary returned by
CopyTradingStrategy.process_leader_trade of src/main.py. -/
structure MirrorDict where
  market_id : String
  outcome : String
  side : String
  amount : ℚ
  price : ℚ
deriving Repr, DecidableEq

/-- External inputs consumed while processing one trade: the market
metadata the client returns, whether a trading account is configured,
and the outcome of a real blockchain trade were one attempted. -/
structure Env where
  market_info : Option MarketInfo := none
  account_configured : Bool := false
  real_success : Bool := true
deriving Repr, DecidableEq

/-- PolymarketClient.place_order of src/main.py, reduced to its success
flag: with dry_run_enabled or TEST mode the order is simulated as an
immediate success and no real trade runs; in LIVE mode with an account
the real-trade outcome decides; otherwise the call fails. A missing
Settings row also fails (the source raises and returns success False). -/
def place_order (settings : Option MSettings) (env : Env) : Bool :=
  match settings with
  | some s =>
    if s.dry_run_enabled || s.global_trading_mode == "TEST" then true
    else if env.account_configured && (s.global_trading_mode == "LIVE") then
      env.real_success
    else false
  | none => false

/-- Position-sizing block of CopyTradingStrategy.process_leader_trade
of src/main.py: percentage of the leader amount, capped in USD value at
max_trade_amount and converted back to shares. -/
def calculate_final_amount (s : MSettings) (leader_amount price : ℚ) : ℚ :=
  let copy_percentage := s.copy_trade_percentage / 100
  let base_amount := leader_amount * copy_percentage
  let max_amount := s.max_trade_amount
  let usd_value := base_amount * price
  let usd_value := if usd_value > max_amount then max_amount else usd_value
  if price > 0 then usd_value / price else 0

/-- CopyTradingStrategy.process_leader_trade of src/main.py, with the
market-info fetch result passed in and the current time as now. -/
def strategy_process_leader_trade (settings : Option MSettings)
    (market_info : Option MarketInfo) (leader_trade : LeaderDict)
    (now : ℤ) : Option MirrorDict :=
  match settings with
  | none => none
  | some s =>
    if s.global_trading_status ≠ "RUNNING" then none
    else match market_info with
    | none => none
    | some mi =>
      if mi.active = false then none
      else if mi.volume < s.min_market_volume then none
      else if resolutionTooFar mi.resolution_time now s.max_days_to_resolution
      then none
      else if calculate_final_amount s leader_trade.amount leader_trade.price ≤ 0
      then none
      else some
        { market_id := leader_trade.market_id
          outcome := leader_trade.outcome
          side := leader_trade.side
          amount := round4
            (calculate_final_amount s leader_trade.amount leader_trade.price)
          price := leader_trade.price }

/-- RiskManager.can_execute_trade of src/main.py, with the database
clock as the current time. -/
def can_execute_trade (settings : Option MSettings) (db : MDB)
    (trade_data : MirrorDict) : Bool × String :=
  match settings with
  | none => (false, "No settings configured")
  | some s =>
    if s.global_trading_mode = "LIVE"
        ∧ trade_data.amount * trade_data.price > 1000 then
      (false, "Trade size too large for live mode")
    else if s.global_trading_mode = "TEST"
        ∧ trade_data.amount * trade_data.price > 5000 then
      (false, "Trade size too large for test mode")
    else
      let recent_trades :=
        (db.follower_trades.filter
          (fun t => db.clock - 3600 ≤ t.created_at)).length
      if 10 ≤ recent_trades then (false, "Too many recent trades")
      else (true, "OK")

/-- WalletMonitor.execute_mirror_trade of src/main.py: place the order
through the client, then record one FollowerTrade whose status is
EXECUTED on success and FAILED otherwise, and one system event. -/
def execute_mirror_trade (db : MDB) (trade_data : MirrorDict)
    (leader_trade_id : ℕ) (env : Env) : MDB :=
  let success := place_order db.settings env
  let is_dry_run := match db.settings with
    | some s => s.dry_run_enabled
    | none => true
  let follower_trade : MFollowerTrade :=
    { leader_trade_id := leader_trade_id
      market_id := trade_data.market_id
      outcome := trade_data.outcome
      side := trade_data.side
      amount := trade_data.amount
      price := trade_data.price
      status := if success then "EXECUTED" else "FAILED"
      is_dry_run := is_dry_run
      created_at := db.clock }
  let ev : MSystemEvent :=
    { event_type := if success then "TRADE_EXECUTED" else "TRADE_FAILED"
      message := "Mirror trade: " ++ trade_data.side ++ " "
        ++ trade_data.outcome }
  { db with
    follower_trades := db.follower_trades ++ [follower_trade]
    system_events := db.system_events ++ [ev] }

/-- WalletMonitor.process_trade of src/main.py: skip an already-seen
external_trade_id, otherwise insert the LeaderTrade row and run the
strategy, risk check and mirror execution for it. -/
def process_trade (db : MDB) (wallet_id : ℕ) (td : TradeData)
    (env : Env) : MDB :=
  if db.leader_trades.any (fun t => t.external_trade_id == td.id) then db
  else
    let leader_trade : MLeaderTrade :=
      { id := db.leader_trades.length
        wallet_id := wallet_id
        external_trade_id := td.id
        market_id := td.market
        outcome := td.outcome
        side := td.side
        amount := td.amount
        price := td.price
        executed_at := td.timestamp }
    let db := { db with leader_trades := db.leader_trades ++ [leader_trade] }
    match strategy_process_leader_trade db.settings env.market_info
      { market_id := td.market
        outcome := td.outcome
        side := td.side
        amount := td.amount
        price := td.price } db.clock with
    | none => db
    | some mirror_trade =>
      if (can_execute_trade db.settings db mirror_trade).1 then
        execute_mirror_trade db mirror_trade leader_trade.id env
      else db

/-- Ingestion of one fetched feed (the inner loop of
WalletMonitor.check_wallet_trades of src/main.py), each entry paired
with its wallet id and external inputs. -/
def ingestFeed (db : MDB) (feed : List (ℕ × TradeData × Env)) : MDB :=
  feed.foldl (fun d p => process_trade d p.1 p.2.1 p.2.2) db

/-- Ingestion across a sequence of poll cycles of src/main.py. -/
def ingestCycles (db : MDB) (cycles : List (List (ℕ × TradeData × Env))) : MDB :=
  cycles.foldl ingestFeed db

/-- Primitive steps taken by switch_trading_mode of src/main.py, in
program order, used to state the ordering properties of a switch. -/
inductive Action where
  | stopMonitoring : Action
  | setStatus : String → Action
  | resetAnalytics : Action
  | setMode : String → Action
  | logMode : Action
deriving Repr, DecidableEq

/-- Ordering of two actions in a trace: a occurs strictly before b. -/
def actionBefore (l : List Action) (a b : Action) : Prop :=
  ∃ i j, i < j ∧ l.get? i = some a ∧ l.get? j = some b

/-- Payload of a switch-mode request: data.get("mode") and
data.get("reset_analytics", True) of src/main.py. -/
structure SwitchPayload where
  mode : Option String := none
  reset_analytics : Option Bool := none
deriving Repr, DecidableEq

/-- Result of a switch-mode request: whether it succeeded, the database
afterwards, and the trace of primitive steps taken. -/
structure SwitchResult where
  ok : Bool
  db : MDB
  trace : List Action
deriving Repr, DecidableEq

/-- reset_trading_analytics of src/main.py: delete all follower trades
and leader trades and clear every wallets last_monitored timestamp;
system events are kept. -/
def reset_trading_analytics (db : MDB) : MDB :=
  { db with
    follower_trades := []
    leader_trades := []
    wallets := db.wallets.map (fun w => { w with last_monitored := none }) }

/-- switch_trading_mode of src/main.py: validate the requested mode,
stop the bot first when it is RUNNING, reset analytics when requested
(the request flag defaults to true), then change the mode, forcing
dry_run_enabled in TEST mode, and log one MODE_SWITCHED event. -/
def switch_trading_mode (db : MDB) (payload : SwitchPayload) (now : ℤ) :
    SwitchResult :=
  let reset_analytics := payload.reset_analytics.getD true
  match payload.mode with
  | none => { ok := false, db := db, trace := [] }
  | some new_mode =>
    if new_mode ≠ "TEST" ∧ new_mode ≠ "LIVE" then
      { ok := false, db := db, trace := [] }
    else
      let s0 : MSettings := db.settings.getD {}
      let current_mode := s0.global_trading_mode
      if current_mode = new_mode then
        { ok := true, db := { db with settings := some s0 }, trace := [] }
      else
        let stopping := s0.global_trading_status = "RUNNING"
        let s1 := if stopping then
            { s0 with global_trading_status := "STOPPED" } else s0
        let trace1 : List Action := if stopping then
            [Action.stopMonitoring, Action.setStatus "STOPPED"] else []
        let db1 := { db with settings := some s1 }
        let db2 := if reset_analytics then reset_trading_analytics db1 else db1
        let trace2 := trace1 ++ (if reset_analytics then
            [Action.resetAnalytics] else [])
        let s2 :=
          if new_mode = "TEST" then
            { s1 with
              global_trading_mode := new_mode
              last_mode_switch := now
              test_mode_started := some now
              dry_run_enabled := true }
          else
            { s1 with
              global_trading_mode := new_mode
              last_mode_switch := now
              live_mode_started := some now }
        let ev : MSystemEvent :=
          { event_type := "MODE_SWITCHED"
            message := "Switched from " ++ current_mode ++ " to " ++ new_mode
              ++ " mode. Analytics reset: "
              ++ (if reset_analytics then "True" else "False") }
        let db3 := { db2 with
          settings := some s2
          system_events := db2.system_events ++ [ev] }
        { ok := true
          db := db3
          trace := trace2 ++ [Action.setMode new_mode, Action.logMode] }

end MainApp

/-!
Helper lemmas shared by the claim proofs.
-/

section Ingestion

variable {σ Input : Type}

/-- Folding a feed of feeds is folding the flattened feed. -/
lemma foldl_flatten (step : σ → Input → σ) (db : σ)
    (cycles : List (List Input)) :
    cycles.foldl (fun d l => l.foldl step d) db
      = (cycles.flatten).foldl step db := by
  induction cycles generalizing db with
  | nil => rfl
  | cons c cs ih => simp [List.foldl_append, ih]

/-- An ingestion step that either leaves the key list unchanged or
appends a previously absent key preserves the at-most-once property of
every key across a fold. -/
lemma foldl_count_le (step : σ → Input → σ) (keys : σ → List String)
    (key : Input → String)
    (hstep : ∀ db inp, keys (step db inp) = keys db
      ∨ (key inp ∉ keys db ∧ keys (step db inp) = keys db ++ [key inp])) :
    ∀ (l : List Input) (db : σ) (e : String),
      (keys db).count e ≤ 1 → (keys (l.foldl step db)).count e ≤ 1 := by
  intro l
  induction l with
  | nil => intro db e h; simpa using h
  | cons hd tl ih =>
    intro db e h
    rw [List.foldl_cons]
    apply ih
    rcases hstep db hd with hs | ⟨hnm, hs⟩
    · rwa [hs]
    · rw [hs, List.count_append]
      by_cases he : e = key hd
      · subst he
        rw [List.count_eq_zero_of_not_mem hnm, List.count_singleton_self]
      · have hz : List.count e [key hd] = 0 :=
          List.count_eq_zero.mpr (by simp [he])
        rw [hz]
        simpa using h

/-- Key counts never decrease across an ingestion fold. -/
lemma foldl_count_mono (step : σ → Input → σ) (keys : σ → List String)
    (key : Input → String)
    (hstep : ∀ db inp, keys (step db inp) = keys db
      ∨ (key inp ∉ keys db ∧ keys (step db inp) = keys db ++ [key inp])) :
    ∀ (l : List Input) (db : σ) (e : String),
      (keys db).count e ≤ (keys (l.foldl step db)).count e := by
  intro l
  induction l with
  | nil => intro db e; simp
  | cons hd tl ih =>
    intro db e
    rw [List.foldl_cons]
    refine le_trans ?_ (ih (step db hd) e)
    rcases hstep db hd with hs | ⟨_, hs⟩
    · rw [hs]
    · rw [hs, List.count_append]
      exact Nat.le_add_right _ _

/-- Every key fed into an ingestion fold is present at least once at
the end, provided each step leaves its own key present. -/
lemma foldl_count_hit (step : σ → Input → σ) (keys : σ → List String)
    (key : Input → String)
    (hstep : ∀ db inp, keys (step db inp) = keys db
      ∨ (key inp ∉ keys db ∧ keys (step db inp) = keys db ++ [key inp]))
    (hmem : ∀ db inp, key inp ∈ keys (step db inp)) :
    ∀ (l : List Input) (db : σ) (inp : Input), inp ∈ l →
      1 ≤ (keys (l.foldl step db)).count (key inp) := by
  intro l
  induction l with
  | nil => intro db inp h; simp at h
  | cons hd tl ih =>
    intro db inp h
    rw [List.foldl_cons]
    rcases List.mem_cons.mp h with h | h
    · subst h
      exact le_trans (List.count_pos_iff.mpr (hmem db inp))
        (foldl_count_mono step keys key hstep tl (step db inp) (key inp))
    · exact ih (step db hd) inp h

end Ingestion

/-- The ingestion step of src/app/wallet_monitor.py either leaves the
external id list unchanged (duplicate skipped) or appends the new,
previously absent external id. -/
lemma app_step_keys (db : App.DB) (p : ℕ × App.LeaderTradeDTO) :
    ((App.WalletMonitor.process_leader_trade db p.1 p.2).leader_trades.map
        (fun t => t.external_trade_id))
      = db.leader_trades.map (fun t => t.external_trade_id)
    ∨ (p.2.external_trade_id
          ∉ db.leader_trades.map (fun t => t.external_trade_id)
      ∧ ((App.WalletMonitor.process_leader_trade db p.1 p.2).leader_trades.map
          (fun t => t.external_trade_id))
        = db.leader_trades.map (fun t => t.external_trade_id)
          ++ [p.2.external_trade_id]) := by
  by_cases hex : db.leader_trades.any
      (fun t => t.external_trade_id == p.2.external_trade_id)
  · left
    simp [App.WalletMonitor.process_leader_trade, hex]
  · right
    constructor
    · intro hmem
      rcases List.mem_map.mp hmem with ⟨t, ht, heq⟩
      exact hex (List.any_eq_true.mpr ⟨t, ht, by simp [heq]⟩)
    · simp [App.WalletMonitor.process_leader_trade, hex]

/-- After the ingestion step of src/app/wallet_monitor.py, the external
id of the processed trade is present in the table. -/
lemma app_step_mem (db : App.DB) (p : ℕ × App.LeaderTradeDTO) :
    p.2.external_trade_id
      ∈ (App.WalletMonitor.process_leader_trade db p.1 p.2).leader_trades.map
          (fun t => t.external_trade_id) := by
  by_cases hex : db.leader_trades.any
      (fun t => t.external_trade_id == p.2.external_trade_id)
  · rcases List.any_eq_true.mp hex with ⟨t, ht, hbeq⟩
    simp only [App.WalletMonitor.process_leader_trade, hex, if_true, ite_true]
    exact List.mem_map.mpr ⟨t, ht, by simpa using hbeq⟩
  · simp [App.WalletMonitor.process_leader_trade, hex]

/-- The LeaderTrade table produced by WalletMonitor.process_trade of
src/main.py: unchanged for a duplicate external id, otherwise the new
row is appended (the downstream strategy, risk and mirror-execution
steps never write to the LeaderTrade table). -/
lemma main_step_leader (db : MainApp.MDB) (w : ℕ) (td : MainApp.TradeData)
    (env : MainApp.Env) :
    (MainApp.process_trade db w td env).leader_trades
    = if db.leader_trades.any (fun t => t.external_trade_id == td.id)
      then db.leader_trades
      else db.leader_trades ++
        [{ id := db.leader_trades.length
           wallet_id := w
           external_trade_id := td.id
           market_id := td.market
           outcome := td.outcome
           side := td.side
           amount := td.amount
           price := td.price
           executed_at := td.timestamp }] := by
  by_cases hex : db.leader_trades.any (fun t => t.external_trade_id == td.id)
  · simp [MainApp.process_trade, hex]
  · cases hstrat : MainApp.strategy_process_leader_trade db.settings
        env.market_info
        { market_id := td.market, outcome := td.outcome, side := td.side
          amount := td.amount, price := td.price } db.clock with
    | none => simp [MainApp.process_trade, hex, hstrat]
    | some m =>
      simp only [MainApp.process_trade, hex, Bool.false_eq_true, if_false,
        ite_false, hstrat]
      split <;> simp [MainApp.execute_mirror_trade]

/-- The ingestion step of src/main.py either leaves the external id
list unchanged or appends the new, previously absent external id. -/
lemma main_step_keys (db : MainApp.MDB)
    (p : ℕ × MainApp.TradeData × MainApp.Env) :
    ((MainApp.process_trade db p.1 p.2.1 p.2.2).leader_trades.map
        (fun t => t.external_trade_id))
      = db.leader_trades.map (fun t => t.external_trade_id)
    ∨ (p.2.1.id ∉ db.leader_trades.map (fun t => t.external_trade_id)
      ∧ ((MainApp.process_trade db p.1 p.2.1 p.2.2).leader_trades.map
          (fun t => t.external_trade_id))
        = db.leader_trades.map (fun t => t.external_trade_id)
          ++ [p.2.1.id]) := by
  by_cases hex : db.leader_trades.any
      (fun t => t.external_trade_id == p.2.1.id)
  · left
    rw [main_step_leader, if_pos hex]
  · right
    constructor
    · intro hmem
      rcases List.mem_map.mp hmem with ⟨t, ht, heq⟩
      exact hex (List.any_eq_true.mpr ⟨t, ht, by simp [heq]⟩)
    · rw [main_step_leader, if_neg hex]
      simp

/-- After the ingestion step of src/main.py, the external id of the
processed trade is present in the table. -/
lemma main_step_mem (db : MainApp.MDB)
    (p : ℕ × MainApp.TradeData × MainApp.Env) :
    p.2.1.id ∈ (MainApp.process_trade db p.1 p.2.1 p.2.2).leader_trades.map
        (fun t => t.external_trade_id) := by
  by_cases hex : db.leader_trades.any
      (fun t => t.external_trade_id == p.2.1.id)
  · rcases List.any_eq_true.mp hex with ⟨t, ht, hbeq⟩
    rw [main_step_leader, if_pos hex]
    exact List.mem_map.mpr ⟨t, ht, by simpa using hbeq⟩
  · rw [main_step_leader, if_neg hex]
    simp

lemma mergePosition_none_eq_some {order : App.MirrorOrder} {px : ℚ}
    {q : App.Position} (h : App.TradeExecutor.mergePosition none order px = some q) :
    q.size = order.size := by
  simp only [App.TradeExecutor.mergePosition] at h
  split at h
  · rw [Option.some.injEq] at h
    subst h
    rfl
  · simp at h

lemma mergePosition_some_pos {position : App.Position} {order : App.MirrorOrder}
    {px : ℚ} {q : App.Position}
    (hpos : 0 < position.size) (hord : 0 < order.size)
    (h : App.TradeExecutor.mergePosition (some position) order px = some q) :
    0 < q.size := by
  simp only [App.TradeExecutor.mergePosition] at h
  split at h
  · rw [Option.some.injEq] at h
    subst h
    simpa using add_pos hpos hord
  · split at h
    · simp at h
    · rename_i hts
      rw [Option.some.injEq] at h
      subst h
      simpa using lt_of_not_le hts

/-!
Claim C1.
-/

/-- C1 (idempotent ingestion): starting from a LeaderTrade table with
at most one row per external_trade_id, ingesting any sequence of poll
cycles leaves at most one row per external_trade_id, and every id that
occurred in the feeds ends with exactly one row. The first conjunct is
the WalletMonitor of src/app/wallet_monitor.py, the second the
WalletMonitor of src/main.py. -/
theorem C1_idempotent_ingestion :
    (∀ (cycles : List (List (ℕ × App.LeaderTradeDTO))) (db : App.DB),
      (∀ e, (db.leader_trades.map (fun t => t.external_trade_id)).count e ≤ 1) →
      (∀ e, ((App.WalletMonitor.ingestCycles db cycles).leader_trades.map
          (fun t => t.external_trade_id)).count e ≤ 1)
      ∧ (∀ p ∈ cycles.flatten,
          ((App.WalletMonitor.ingestCycles db cycles).leader_trades.map
            (fun t => t.external_trade_id)).count p.2.external_trade_id = 1))
    ∧ (∀ (cycles : List (List (ℕ × MainApp.TradeData × MainApp.Env)))
        (db : MainApp.MDB),
      (∀ e, (db.leader_trades.map (fun t => t.external_trade_id)).count e ≤ 1) →
      (∀ e, ((MainApp.ingestCycles db cycles).leader_trades.map
          (fun t => t.external_trade_id)).count e ≤ 1)
      ∧ (∀ p ∈ cycles.flatten,
          ((MainApp.ingestCycles db cycles).leader_trades.map
            (fun t => t.external_trade_id)).count p.2.1.id = 1)) := by
  constructor
  · intro cycles db h
    have hjoin : App.WalletMonitor.ingestCycles db cycles
        = (cycles.flatten).foldl
            (fun d p => App.WalletMonitor.process_leader_trade d p.1 p.2) db := by
      unfold App.WalletMonitor.ingestCycles App.WalletMonitor.ingestFeed
      exact foldl_flatten _ db cycles
    constructor
    · intro e
      rw [hjoin]
      exact foldl_count_le
        (fun d p => App.WalletMonitor.process_leader_trade d p.1 p.2)
        (fun d => d.leader_trades.map (fun t => t.external_trade_id))
        (fun p => p.2.external_trade_id)
        app_step_keys cycles.flatten db e (h e)
    · intro p hp
      rw [hjoin]
      refine Nat.le_antisymm ?_ ?_
      · exact foldl_count_le
          (fun d p => App.WalletMonitor.process_leader_trade d p.1 p.2)
          (fun d => d.leader_trades.map (fun t => t.external_trade_id))
          (fun p => p.2.external_trade_id)
          app_step_keys cycles.flatten db _ (h _)
      · exact foldl_count_hit
          (fun d p => App.WalletMonitor.process_leader_trade d p.1 p.2)
          (fun d => d.leader_trades.map (fun t => t.external_trade_id))
          (fun p => p.2.external_trade_id)
          app_step_keys app_step_mem cycles.flatten db p hp
  · intro cycles db h
    have hjoin : MainApp.ingestCycles db cycles
        = (cycles.flatten).foldl
            (fun d p => MainApp.process_trade d p.1 p.2.1 p.2.2) db := by
      unfold MainApp.ingestCycles MainApp.ingestFeed
      exact foldl_flatten _ db cycles
    constructor
    · intro e
      rw [hjoin]
      exact foldl_count_le
        (fun d p => MainApp.process_trade d p.1 p.2.1 p.2.2)
        (fun d => d.leader_trades.map (fun t => t.external_trade_id))
        (fun p => p.2.1.id)
        main_step_keys cycles.flatten db e (h e)
    · intro p hp
      rw [hjoin]
      refine Nat.le_antisymm ?_ ?_
      · exact foldl_count_le
          (fun d p => MainApp.process_trade d p.1 p.2.1 p.2.2)
          (fun d => d.leader_trades.map (fun t => t.external_trade_id))
          (fun p => p.2.1.id)
          main_step_keys cycles.flatten db _ (h _)
      · exact foldl_count_hit
          (fun d p => MainApp.process_trade d p.1 p.2.1 p.2.2)
          (fun d => d.leader_trades.map (fun t => t.external_trade_id))
          (fun p => p.2.1.id)
          main_step_keys main_step_mem cycles.flatten db p hp

/-- Sample trade feed entry used in the concrete ingestion scenario. -/
def sampleDTO : App.LeaderTradeDTO :=
  { external_trade_id := "t1"
    market_id := "m"
    outcome_id := "o"
    side := "YES"
    size := 1
    price := 1/2
    executed_at := 0 }

/-- Witness for C1: two cycles feeding the same external trade id three
times in total leave exactly one matching row. -/
theorem C1_idempotent_ingestion_witness :
    (∀ e, (({} : App.DB).leader_trades.map
        (fun t => t.external_trade_id)).count e ≤ 1)
    ∧ ((∀ e, ((App.WalletMonitor.ingestCycles {}
          [[(1, sampleDTO), (1, sampleDTO)], [(1, sampleDTO)]]).leader_trades.map
            (fun t => t.external_trade_id)).count e ≤ 1)
      ∧ (∀ p ∈ ([[(1, sampleDTO), (1, sampleDTO)], [(1, sampleDTO)]] :
            List (List (ℕ × App.LeaderTradeDTO))).flatten,
          ((App.WalletMonitor.ingestCycles {}
            [[(1, sampleDTO), (1, sampleDTO)], [(1, sampleDTO)]]).leader_trades.map
              (fun t => t.external_trade_id)).count p.2.external_trade_id = 1)) :=
  ⟨fun _ => Nat.zero_le 1,
    C1_idempotent_ingestion.1 [[(1, sampleDTO), (1, sampleDTO)], [(1, sampleDTO)]]
      {} (fun _ => Nat.zero_le 1)⟩

/-!
Claim C3.
-/

/-- C3 (sizing correctness): with a positive leader price, the computed
mirror size is round4 of min(size times pct over 100 times price,
max_trade_amount) divided by the price, the slippage ceiling is the
leader price times 102/100, a mirror order always carries exactly these
values, and the two concrete examples of the spec evaluate as stated. -/
theorem C3_sizing_correctness :
    (∀ (s : App.Settings) (size price : ℚ), 0 < price →
      App.CopyStrategy.calculate_trade_size s size price =
        round4 (min (size * (s.copy_trade_percentage / 100) * price)
          s.max_trade_amount / price)
      ∧ App.CopyStrategy.apply_slippage price = price * (102 / 100))
    ∧ (∀ (s : App.Settings) (lt : App.LeaderTrade)
        (mi : Option App.MarketDTO) (now : ℤ) (o : App.MirrorOrder),
      App.CopyStrategy.process_leader_trade s lt mi now = some o →
      o.size = App.CopyStrategy.calculate_trade_size s lt.size lt.price
      ∧ o.max_price = App.CopyStrategy.apply_slippage lt.price)
    ∧ App.CopyStrategy.calculate_trade_size {} 100 (1/2) = 20
    ∧ App.CopyStrategy.apply_slippage (1/2) = 51/100
    ∧ App.CopyStrategy.calculate_trade_size { copy_trade_percentage := 50 }
        1000 (1/2) = 200 := by
  refine ⟨?_, ?_, ?_, ?_, ?_⟩
  · intro s size price hp
    constructor
    · unfold App.CopyStrategy.calculate_trade_size
      simp only [hp, if_true, gt_iff_lt]
      congr 1
      rcases le_or_lt (size * (s.copy_trade_percentage / 100) * price)
          s.max_trade_amount with h | h
      · rw [min_eq_left h, if_neg (not_lt.mpr h)]
      · rw [min_eq_right h.le, if_pos h]
    · unfold App.CopyStrategy.apply_slippage
      ring
  · intro s lt mi now o h
    unfold App.CopyStrategy.process_leader_trade at h
    split at h
    · simp at h
    · split at h
      · simp at h
      · split at h
        · simp at h
        · split at h
          · simp at h
          · split at h
            · simp at h
            · rw [Option.some.injEq] at h
              subst h
              exact ⟨rfl, rfl⟩
  · norm_num [App.CopyStrategy.calculate_trade_size, round4, roundHalfEven]
  · norm_num [App.CopyStrategy.apply_slippage]
  · norm_num [App.CopyStrategy.calculate_trade_size, round4, roundHalfEven]

/-- Witness for C3 at the first concrete example of the spec. -/
theorem C3_sizing_correctness_witness :
    (0:ℚ) < 1/2 ∧
    (App.CopyStrategy.calculate_trade_size {} 100 (1/2) =
      round4 (min ((100:ℚ) * (20 / 100) * (1/2)) 100 / (1/2))
     ∧ App.CopyStrategy.apply_slippage (1/2) = (1/2 : ℚ) * (102 / 100)) :=
  ⟨by norm_num, C3_sizing_correctness.1 {} 100 (1/2) (by norm_num)⟩

/-!
Claim C4.
-/

/-- C4 (position update correctness): merging a YES execution into an
existing position adds the sizes and takes the weighted-average price;
a NO execution subtracts the size and deletes the row when the result
is not positive; updating a table of positive positions with a positive
order leaves only positive positions; a failed live execution never
changes the positions table. -/
theorem C4_position_update_correctness :
    (∀ (position : App.Position) (order : App.MirrorOrder) (p : ℚ),
      order.side = "YES" → 0 < position.size + order.size →
      App.TradeExecutor.mergePosition (some position) order p =
        some { position with
          size := position.size + order.size
          average_price := (position.size * position.average_price
            + order.size * p) / (position.size + order.size) })
    ∧ (∀ (position : App.Position) (order : App.MirrorOrder) (p : ℚ),
      order.side = "NO" →
      App.TradeExecutor.mergePosition (some position) order p =
        (if position.size - order.size ≤ 0 then none
         else some { position with size := position.size - order.size }))
    ∧ (∀ (ps : List App.Position) (order : App.MirrorOrder) (p : ℚ),
      (∀ q ∈ ps, 0 < q.size) → 0 < order.size →
      ∀ q ∈ App.TradeExecutor.update_position ps order p, 0 < q.size)
    ∧ (∀ (db : App.DB) (order : App.MirrorOrder) (r : App.OrderResult),
      r.success = false →
      (App.TradeExecutor.execute_live_trade db order r).db.positions
        = db.positions) := by
  refine ⟨?_, ?_, ?_, ?_⟩
  · intro position order p hside htot
    simp [App.TradeExecutor.mergePosition, hside, htot]
  · intro position order p hside
    have hne : order.side ≠ "YES" := by simp [hside]
    simp [App.TradeExecutor.mergePosition, hne]
  · intro ps order p
    induction ps with
    | nil =>
      intro hps hord q hq
      simp only [App.TradeExecutor.update_position] at hq
      split at hq
      · rename_i q2 hq2
        simp only [List.mem_singleton] at hq
        subst hq
        rw [mergePosition_none_eq_some hq2]
        exact hord
      · simp at hq
    | cons hd tl ih =>
      intro hps hord q hq
      simp only [App.TradeExecutor.update_position] at hq
      split at hq
      · split at hq
        · exact hps q (List.mem_cons_of_mem hd hq)
        · rename_i q2 hq2
          rcases List.mem_cons.mp hq with h | h
          · subst h
            exact mergePosition_some_pos (hps hd (List.mem_cons_self hd tl)) hord hq2
          · exact hps q (List.mem_cons_of_mem hd h)
      · rcases List.mem_cons.mp hq with h | h
        · subst h
          exact hps q (List.mem_cons_self q tl)
        · exact ih (fun r hr => hps r (List.mem_cons_of_mem hd hr)) hord q h
  · intro db order r hr
    simp [App.TradeExecutor.execute_live_trade, hr]

/-- Witness for C4 at the two concrete examples of the spec: the
position merge 10 at 0.4 plus a YES trade of 10 at 0.6 giving 20 at
0.5, and the closure of a 10-share position by a NO trade of 15. -/
theorem C4_position_update_correctness_witness :
    App.TradeExecutor.mergePosition (some ⟨"m", "o", 10, 2/5⟩)
      ⟨1, "m", "o", "YES", 10, 3/5⟩ (3/5) = some ⟨"m", "o", 20, 1/2⟩
    ∧ App.TradeExecutor.mergePosition (some ⟨"m", "o", 10, 1/2⟩)
      ⟨1, "m", "o", "NO", 15, 1/2⟩ (1/2) = none := by
  constructor
  · rw [C4_position_update_correctness.1 ⟨"m", "o", 10, 2/5⟩
      ⟨1, "m", "o", "YES", 10, 3/5⟩ (3/5) rfl (by norm_num)]
    norm_num [App.Position.mk.injEq]
  · rw [C4_position_update_correctness.2.1 ⟨"m", "o", 10, 1/2⟩
      ⟨1, "m", "o", "NO", 15, 1/2⟩ (1/2) rfl]
    norm_num

/-!
Claim C2.
-/

/-- C2 (failed execution auditability): every live execution attempt
appends exactly one system event, and when the trading port reports
failure the executor still appends exactly one FollowerTrade row, with
status FAILED, for the order. -/
theorem C2_failed_execution_auditability :
    ∀ (db : App.DB) (o : App.MirrorOrder) (r : App.OrderResult),
      (App.TradeExecutor.execute_live_trade db o r).db.system_events.length
        = db.system_events.length + 1
      ∧ (r.success = false →
        (App.TradeExecutor.execute_live_trade db o r).db.follower_trades
          = db.follower_trades ++
            [{ leader_trade_id := o.leader_trade_id
               market_id := o.market_id
               outcome_id := o.outcome_id
               side := o.side
               size := o.size
               price := o.max_price
               executed_at := db.clock
               status := "FAILED"
               is_dry_run := false }]) := by
  intro db o r
  constructor
  · by_cases hr : r.success <;>
      simp [App.TradeExecutor.execute_live_trade, hr]
  · intro hr
    simp [App.TradeExecutor.execute_live_trade, hr]

/-- Witness for C2 at a concrete failed order result. -/
theorem C2_failed_execution_auditability_witness :
    (App.TradeExecutor.execute_live_trade {} ⟨7, "m", "o", "YES", 10, 1/2⟩
      ⟨false, "", "rejected"⟩).db.system_events.length = 0 + 1
    ∧ (App.TradeExecutor.execute_live_trade {} ⟨7, "m", "o", "YES", 10, 1/2⟩
      ⟨false, "", "rejected"⟩).db.follower_trades
        = [] ++ [{ leader_trade_id := 7, market_id := "m", outcome_id := "o"
                   side := "YES", size := 10, price := 1/2, executed_at := 0
                   status := "FAILED", is_dry_run := false }] :=
  ⟨(C2_failed_execution_auditability {} ⟨7, "m", "o", "YES", 10, 1/2⟩
      ⟨false, "", "rejected"⟩).1,
   (C2_failed_execution_auditability {} ⟨7, "m", "o", "YES", 10, 1/2⟩
      ⟨false, "", "rejected"⟩).2 rfl⟩

/-!
Claim C5.
-/

/-- Counterexample to C5 as stated: with dry_run_enabled false, trading
mode TEST and status RUNNING, the executor takes the live path, so the
live trading port is called and the recorded FollowerTrade has status
EXECUTED rather than SIMULATED. -/
theorem C5_simulation_gating_counterexample :
    (App.TradeExecutor.execute_order
      { global_trading_mode := "TEST", global_trading_status := "RUNNING"
        dry_run_enabled := false }
      {} ⟨0, "m", "o", "YES", 10, 1/2⟩ ⟨true, "oid", ""⟩).portCalled = true
    ∧ ((App.TradeExecutor.execute_order
      { global_trading_mode := "TEST", global_trading_status := "RUNNING"
        dry_run_enabled := false }
      {} ⟨0, "m", "o", "YES", 10, 1/2⟩ ⟨true, "oid", ""⟩).db.follower_trades.map
        (fun t => t.status)) = ["EXECUTED"] :=
  ⟨rfl, rfl⟩

/-- C5 (amended): while status is RUNNING, an order executed with
dry_run_enabled true yields a SIMULATED FollowerTrade whose execution
price is the orders max_price and the live port is not called; with
dry_run_enabled false the executor invokes the live port even when
global_trading_mode is TEST. -/
theorem C5_simulation_gating_amended :
    (∀ (s : App.Settings) (db : App.DB) (o : App.MirrorOrder)
       (r : App.OrderResult),
      s.global_trading_status = "RUNNING" → s.dry_run_enabled = true →
      (App.TradeExecutor.execute_order s db o r).portCalled = false
      ∧ (App.TradeExecutor.execute_order s db o r).db.follower_trades
        = db.follower_trades ++
          [{ leader_trade_id := o.leader_trade_id
             market_id := o.market_id
             outcome_id := o.outcome_id
             side := o.side
             size := o.size
             price := o.max_price
             executed_at := db.clock
             status := "SIMULATED"
             is_dry_run := true }])
    ∧ (∀ (s : App.Settings) (db : App.DB) (o : App.MirrorOrder)
       (r : App.OrderResult),
      s.global_trading_status = "RUNNING" → s.dry_run_enabled = false →
      (App.TradeExecutor.execute_order s db o r).portCalled = true) := by
  constructor
  · intro s db o r hst hdr
    constructor <;>
      simp [App.TradeExecutor.execute_order, App.TradeExecutor.execute_dry_run,
        hst, hdr]
  · intro s db o r hst hdr
    by_cases hr : r.success <;>
      simp [App.TradeExecutor.execute_order,
        App.TradeExecutor.execute_live_trade, hst, hdr, hr]

/-- Witness for the amended C5 at a concrete dry-run execution. -/
theorem C5_simulation_gating_amended_witness :
    (({ global_trading_status := "RUNNING" } : App.Settings).global_trading_status
        = "RUNNING"
     ∧ ({ global_trading_status := "RUNNING" } : App.Settings).dry_run_enabled
        = true)
    ∧ ((App.TradeExecutor.execute_order { global_trading_status := "RUNNING" }
        {} ⟨3, "m", "o", "YES", 10, 1/2⟩ ⟨true, "", ""⟩).portCalled = false
      ∧ (App.TradeExecutor.execute_order { global_trading_status := "RUNNING" }
        {} ⟨3, "m", "o", "YES", 10, 1/2⟩ ⟨true, "", ""⟩).db.follower_trades
        = [] ++
          [{ leader_trade_id := 3, market_id := "m", outcome_id := "o"
             side := "YES", size := 10, price := 1/2, executed_at := 0
             status := "SIMULATED", is_dry_run := true }]) :=
  ⟨⟨rfl, rfl⟩, C5_simulation_gating_amended.1 { global_trading_status := "RUNNING" }
    {} ⟨3, "m", "o", "YES", 10, 1/2⟩ ⟨true, "", ""⟩ rfl rfl⟩

/-!
Claim C6.
-/

/-- C6 (risk rejection): an order whose notional size times max_price
strictly exceeds max_trade_amount is refused by can_open_trade with a
human-readable reason, and the risk-gated pipeline creates no
FollowerTrade row for it (the database is left unchanged). -/
theorem C6_risk_rejection :
    ∀ (s : App.Settings) (db : App.DB) (o : App.MirrorOrder)
      (r : App.OrderResult),
      o.size * o.max_price > s.max_trade_amount →
      App.RiskManager.can_open_trade s db o =
        (false, "Trade size $" ++ toString (o.size * o.max_price)
          ++ " exceeds max $" ++ toString s.max_trade_amount)
      ∧ App.risk_gated_execute s db o r = db := by
  intro s db o r h
  constructor
  · simp [App.RiskManager.can_open_trade, h]
  · simp [App.risk_gated_execute, App.RiskManager.can_open_trade, h]

/-- Witness for C6 at a concrete over-notional order. -/
theorem C6_risk_rejection_witness :
    (300:ℚ) * (1/2) > (100:ℚ)
    ∧ (App.RiskManager.can_open_trade {} {} ⟨0, "m", "o", "YES", 300, 1/2⟩ =
        (false, "Trade size $" ++ toString ((300:ℚ) * (1/2))
          ++ " exceeds max $" ++ toString (100:ℚ))
      ∧ App.risk_gated_execute {} {} ⟨0, "m", "o", "YES", 300, 1/2⟩
          ⟨true, "", ""⟩ = {}) :=
  ⟨by norm_num, C6_risk_rejection {} {} ⟨0, "m", "o", "YES", 300, 1/2⟩
    ⟨true, "", ""⟩ (by norm_num)⟩

/-!
Claim C7.
-/

/-- C7 (mode-switch safety): a TEST-LIVE switch requested while the
status is RUNNING first records the monitor stop and the transition to
status STOPPED strictly before the mode value changes, leaves the
status STOPPED afterwards, and while the status is not RUNNING the
executor refuses every order without touching the database or the
trading port (so no trade executes mid-switch). -/
theorem C7_mode_switch_safety :
    (∀ (db : MainApp.MDB) (p : MainApp.SwitchPayload) (now : ℤ) (m : String),
      p.mode = some m → (m = "TEST" ∨ m = "LIVE") →
      (db.settings.getD {}).global_trading_mode ≠ m →
      (db.settings.getD {}).global_trading_status = "RUNNING" →
      MainApp.actionBefore (MainApp.switch_trading_mode db p now).trace
          MainApp.Action.stopMonitoring (MainApp.Action.setMode m)
      ∧ MainApp.actionBefore (MainApp.switch_trading_mode db p now).trace
          (MainApp.Action.setStatus "STOPPED") (MainApp.Action.setMode m)
      ∧ ((MainApp.switch_trading_mode db p now).db.settings.map
          (fun s => s.global_trading_status)) = some "STOPPED")
    ∧ (∀ (s : App.Settings) (db : App.DB) (o : App.MirrorOrder)
        (r : App.OrderResult), s.global_trading_status ≠ "RUNNING" →
        App.TradeExecutor.execute_order s db o r =
          { ok := false, db := db, portCalled := false }) := by
  constructor
  · intro db p now m hm hvalid hne hstop
    rcases hvalid with h | h <;> subst h <;>
      by_cases hr : p.reset_analytics.getD true <;>
        simp only [MainApp.switch_trading_mode, hm, hne, hstop, hr,
          MainApp.reset_trading_analytics, if_true, if_false, ite_true,
          ite_false, ne_eq, not_true, not_false_iff, String.reduceEq,
          and_self, and_false, false_and, not_false_eq_true,
          reduceCtorEq, Option.getD_some, Option.getD_none, List.cons_append,
          List.nil_append, List.append_nil, List.singleton_append] <;>
        first
          | exact ⟨⟨0, 3, by norm_num, rfl, rfl⟩,
              ⟨1, 3, by norm_num, rfl, rfl⟩, by simp [hstop]⟩
          | exact ⟨⟨0, 2, by norm_num, rfl, rfl⟩,
              ⟨1, 2, by norm_num, rfl, rfl⟩, by simp [hstop]⟩
  · intro s db o r hst
    simp [App.TradeExecutor.execute_order, hst]

/-- Witness for C7 at a concrete RUNNING-state switch to LIVE. -/
theorem C7_mode_switch_safety_witness :
    ((({ settings := some { global_trading_status := "RUNNING" } } :
        MainApp.MDB).settings.getD {}).global_trading_status = "RUNNING")
    ∧ (MainApp.actionBefore (MainApp.switch_trading_mode
          { settings := some { global_trading_status := "RUNNING" } }
          { mode := some "LIVE" } 10).trace
        MainApp.Action.stopMonitoring (MainApp.Action.setMode "LIVE")
      ∧ MainApp.actionBefore (MainApp.switch_trading_mode
          { settings := some { global_trading_status := "RUNNING" } }
          { mode := some "LIVE" } 10).trace
        (MainApp.Action.setStatus "STOPPED") (MainApp.Action.setMode "LIVE")
      ∧ ((MainApp.switch_trading_mode
          { settings := some { global_trading_status := "RUNNING" } }
          { mode := some "LIVE" } 10).db.settings.map
            (fun s => s.global_trading_status)) = some "STOPPED") :=
  ⟨rfl, C7_mode_switch_safety.1
    { settings := some { global_trading_status := "RUNNING" } }
    { mode := some "LIVE" } 10 "LIVE" rfl (Or.inr rfl) (by decide) rfl⟩

/-!
Claim C8.
-/

/-- Sample LeaderTrade row used in the concrete switch-mode scenarios. -/
def sampleLeaderRow : MainApp.MLeaderTrade :=
  { id := 0
    wallet_id := 1
    external_trade_id := "t1"
    market_id := "m"
    outcome := "o"
    side := "buy"
    amount := 1
    price := 1/2
    executed_at := 0 }

/-- Sample database with one monitored wallet and one recorded leader
trade, used in the concrete switch-mode scenarios. -/
def sampleSwitchDB : MainApp.MDB :=
  { settings := some {}
    wallets := [{ id := 1
                  address := "0xabc"
                  nickname := "w"
                  is_active := true
                  last_monitored := some 5 }]
    leader_trades := [sampleLeaderRow] }

/-- Counterexample to C8 as stated: a mode-switch request whose payload
does not mention reset_analytics at all (the flag defaults to true in
the source) still clears the LeaderTrade table. -/
theorem C8_analytics_reset_counterexample :
    ({ mode := some "LIVE" } : MainApp.SwitchPayload).reset_analytics = none
    ∧ (MainApp.switch_trading_mode sampleSwitchDB
        { mode := some "LIVE" } 10).db.leader_trades = []
    ∧ sampleSwitchDB.leader_trades ≠ [] :=
  ⟨rfl, rfl, by simp [sampleSwitchDB]⟩

/-- C8 (amended): the analytics reset of a mode switch defaults to
enabled. A request carrying reset_analytics = false leaves the
LeaderTrade and FollowerTrade tables and the wallet rows (hence every
last_monitored timestamp) unchanged; a request omitting the flag clears
both tables and resets every wallets last_monitored; either way the
switch appends exactly one logged MODE_SWITCHED event. -/
theorem C8_analytics_reset_amended :
    ∀ (db : MainApp.MDB) (p : MainApp.SwitchPayload) (now : ℤ) (m : String),
      p.mode = some m → (m = "TEST" ∨ m = "LIVE") →
      (db.settings.getD {}).global_trading_mode ≠ m →
      (p.reset_analytics = some false →
        (MainApp.switch_trading_mode db p now).db.leader_trades
            = db.leader_trades
        ∧ (MainApp.switch_trading_mode db p now).db.follower_trades
            = db.follower_trades
        ∧ (MainApp.switch_trading_mode db p now).db.wallets = db.wallets)
      ∧ (p.reset_analytics = none →
        (MainApp.switch_trading_mode db p now).db.leader_trades = []
        ∧ (MainApp.switch_trading_mode db p now).db.follower_trades = []
        ∧ ∀ w ∈ (MainApp.switch_trading_mode db p now).db.wallets,
            w.last_monitored = none)
      ∧ ((MainApp.switch_trading_mode db p now).db.system_events.map
          (fun e => e.event_type))
          = (db.system_events.map (fun e => e.event_type))
            ++ ["MODE_SWITCHED"] := by
  intro db p now m hm hvalid hne
  have hcond : ¬(m ≠ "TEST" ∧ m ≠ "LIVE") := by
    rcases hvalid with h | h <;> simp [h]
  refine ⟨?_, ?_, ?_⟩
  · intro hres
    by_cases hstop : (db.settings.getD {}).global_trading_status = "RUNNING" <;>
      simp [MainApp.switch_trading_mode, hm, hres, hne, hstop, if_neg hcond]
  · intro hres
    by_cases hstop : (db.settings.getD {}).global_trading_status = "RUNNING" <;>
      refine ⟨?_, ?_, ?_⟩ <;>
        simp [MainApp.switch_trading_mode, hm, hres, hne, hstop,
          if_neg hcond, MainApp.reset_trading_analytics]
  · by_cases hstop : (db.settings.getD {}).global_trading_status = "RUNNING" <;>
      by_cases hr : p.reset_analytics.getD true <;>
        simp [MainApp.switch_trading_mode, hm, hne, hstop, hr,
          MainApp.reset_trading_analytics, if_neg hcond]

/-- Witness for the amended C8 at a concrete opt-out request. -/
theorem C8_analytics_reset_amended_witness :
    ((sampleSwitchDB.settings.getD {}).global_trading_mode ≠ "LIVE")
    ∧ ((MainApp.switch_trading_mode sampleSwitchDB
        { mode := some "LIVE", reset_analytics := some false }
        10).db.leader_trades = sampleSwitchDB.leader_trades) :=
  ⟨by decide,
    ((C8_analytics_reset_amended sampleSwitchDB
      { mode := some "LIVE", reset_analytics := some false } 10 "LIVE"
      rfl (Or.inr rfl) (by decide)).1 rfl).1⟩

/-!
Claim C9.
-/

/-- Counterexample to C9 as stated: the CopyStrategy of
src/app/strategy.py never reads is_active, so a leader trade on an
inactive market with sufficient volume still produces a mirror order. -/
theorem C9_market_filter_counterexample :
    ({ market_id := "m", volume := 50000, is_active := false } :
        App.MarketDTO).is_active = false
    ∧ App.CopyStrategy.process_leader_trade
        { global_trading_status := "RUNNING" }
        { id := 1, external_trade_id := "t", wallet_id := 1, market_id := "m"
          outcome_id := "o", side := "YES", size := 100, price := 1/2
          executed_at := 0 }
        (some { market_id := "m", volume := 50000, is_active := false }) 0
      = some { leader_trade_id := 1, market_id := "m", outcome_id := "o"
               side := "YES", size := 20, max_price := 51/100 } := by
  refine ⟨rfl, ?_⟩
  norm_num [App.CopyStrategy.process_leader_trade,
    App.CopyStrategy.calculate_trade_size, App.CopyStrategy.apply_slippage,
    round4, roundHalfEven, resolutionTooFar, App.MirrorOrder.mk.injEq]

/-- C9 (amended): the CopyTradingStrategy of src/main.py rejects a
leader trade when its market is inactive or its volume is below
min_market_volume; the CopyStrategy of src/app/strategy.py applies only
the volume filter (is_active is ignored) and rejects when the volume is
below min_market_volume. -/
theorem C9_market_filter_amended :
    (∀ (s : MainApp.MSettings) (mi : MainApp.MarketInfo)
       (lt : MainApp.LeaderDict) (now : ℤ),
      mi.active = false ∨ mi.volume < s.min_market_volume →
      MainApp.strategy_process_leader_trade (some s) (some mi) lt now = none)
    ∧ (∀ (s : App.Settings) (lt : App.LeaderTrade) (mi : App.MarketDTO)
       (now : ℤ),
      mi.volume < s.min_market_volume →
      App.CopyStrategy.process_leader_trade s lt (some mi) now = none) := by
  constructor
  · intro s mi lt now h
    rcases h with h | h <;>
      simp [MainApp.strategy_process_leader_trade, h]
  · intro s lt mi now h
    simp [App.CopyStrategy.process_leader_trade, h]

/-- Witness for the amended C9 at a concrete inactive market and a
concrete low-volume market. -/
theorem C9_market_filter_amended_witness :
    (({ active := false, volume := 50000 } : MainApp.MarketInfo).active = false
      ∨ ({ active := false, volume := 50000 } : MainApp.MarketInfo).volume
          < ({} : MainApp.MSettings).min_market_volume)
    ∧ MainApp.strategy_process_leader_trade (some {})
        (some { active := false, volume := 50000 })
        { market_id := "m", outcome := "o", side := "buy", amount := 100
          price := 1/2 } 0 = none :=
  ⟨Or.inl rfl, C9_market_filter_amended.1 {} { active := false, volume := 50000 }
    { market_id := "m", outcome := "o", side := "buy", amount := 100
      price := 1/2 } 0 (Or.inl rfl)⟩

/-!
Claim C10.
-/

/-- C10 (TEST switch forces dry-run): a successful switch into TEST
mode sets dry_run_enabled to true regardless of its previous value,
while a successful switch into LIVE mode leaves dry_run_enabled
unchanged. -/
theorem C10_switch_to_test_forces_dry_run :
    ∀ (db : MainApp.MDB) (p : MainApp.SwitchPayload) (now : ℤ),
      (p.mode = some "TEST" →
        (db.settings.getD {}).global_trading_mode ≠ "TEST" →
        ((MainApp.switch_trading_mode db p now).db.settings.map
          (fun s => s.dry_run_enabled)) = some true)
      ∧ (p.mode = some "LIVE" →
        (db.settings.getD {}).global_trading_mode ≠ "LIVE" →
        ((MainApp.switch_trading_mode db p now).db.settings.map
          (fun s => s.dry_run_enabled))
          = some (db.settings.getD {}).dry_run_enabled) := by
  intro db p now
  constructor <;> intro hm hne <;>
    by_cases hstop : (db.settings.getD {}).global_trading_status = "RUNNING" <;>
      by_cases hr : p.reset_analytics.getD true <;>
        simp [MainApp.switch_trading_mode, hm, hne, hstop, hr,
          MainApp.reset_trading_analytics]

/-- Sample database in LIVE mode with dry-run disabled, used in the
concrete switch-to-TEST scenario. -/
def liveSwitchDB : MainApp.MDB :=
  { settings := some { global_trading_mode := "LIVE"
                       dry_run_enabled := false } }

/-- Witness for C10 at a concrete switch into TEST from LIVE mode. -/
theorem C10_switch_to_test_forces_dry_run_witness :
    ((liveSwitchDB.settings.getD {}).global_trading_mode ≠ "TEST")
    ∧ ((MainApp.switch_trading_mode liveSwitchDB
        { mode := some "TEST" } 5).db.settings.map
          (fun s => s.dry_run_enabled)) = some true :=
  ⟨by decide,
    (C10_switch_to_test_forces_dry_run liveSwitchDB
      { mode := some "TEST" } 5).1 rfl (by decide)⟩
